import Mathlib

/-!
Verification development for the wetzel markdown generator
(lib/generateMarkdown.js): a shallow embedding of the resolution-result
consumption and rendering pipeline, together with theorems about the
table-of-contents builder, the property-descriptor extractor, the
constraint renderer, the enum resolver and the top-level document
assembler.

Modelling conventions:
- JavaScript objects with optional fields become structures of Option
  fields; `defined(x)` is `Option.isSome`.
- JSON values (defaults, enum entries, examples) are modelled by the
  inductive `Json`; JavaScript coercions (Array.prototype.toString,
  JSON.stringify, template-literal coercion) are modelled explicitly.
- The collaborating modules that are not part of lib/generateMarkdown.js
  (the schema3/schema4 resolvers, sortObject, and the style layer) are
  modelled from the spec; each such definition carries a doc comment
  starting with "Modelled from the spec:".
- A JavaScript TypeError abort is modelled by returning `none`.
-/

namespace Wetzel

/-- A JSON value, as manipulated by the generator (defaults, enum and
const values, examples). -/
inductive Json where
  | null
  | bool (b : Bool)
  | num (n : Int)
  | str (s : String)
  | arr (elems : List Json)
  | obj (fields : List (String × Json))

/-- The value of a draft-dependent `exclusiveMinimum` / `exclusiveMaximum`
field: a number in newer dialects, a boolean in older ones. -/
inductive NumOrBool where
  | num (n : Int)
  | bool (b : Bool)
deriving DecidableEq

mutual

/-- The JavaScript builtin JSON.stringify, on our `Json` model (no
escaping is modelled; the inputs used here contain none). -/
def jsonStringify : Json → String
  | .null => "null"
  | .bool b => if b then "true" else "false"
  | .num n => toString n
  | .str s => "\"" ++ s ++ "\""
  | .arr elems => "[" ++ jsonStringifyList elems ++ "]"
  | .obj fields => "\x7b" ++ jsonStringifyFields fields ++ "\x7d"

def jsonStringifyList : List Json → String
  | [] => ""
  | [v] => jsonStringify v
  | v :: rest => jsonStringify v ++ "," ++ jsonStringifyList rest

def jsonStringifyFields : List (String × Json) → String
  | [] => ""
  | [(k, v)] => "\"" ++ k ++ "\":" ++ jsonStringify v
  | (k, v) :: rest => "\"" ++ k ++ "\":" ++ jsonStringify v ++ "," ++ jsonStringifyFields rest

end

mutual

/-- Element conversion used by the JavaScript Array.prototype.toString
(i.e. Array.prototype.join): null becomes the empty string, nested arrays
are joined recursively, plain objects print as [object Object]. -/
def jsJoinElem : Json → String
  | .null => ""
  | .bool b => if b then "true" else "false"
  | .num n => toString n
  | .str s => s
  | .arr es => jsArrayToString es
  | .obj _ => "[object Object]"

def jsArrayToString : List Json → String
  | [] => ""
  | [v] => jsJoinElem v
  | v :: rest => jsJoinElem v ++ "," ++ jsArrayToString rest

end

/-- The scalar (non-recursive) fields of a schema fragment. -/
structure SchemaCore where
  dollarSchema : Option String := none
  title : Option String := none
  typeName : Option String := none
  description : Option String := none
  type : Option String := none
  required : Option Bool := none
  default : Option Json := none
  minItems : Option Int := none
  maxItems : Option Int := none
  uniqueItems : Option Bool := none
  minimum : Option Int := none
  maximum : Option Int := none
  exclusiveMinimum : Option NumOrBool := none
  exclusiveMaximum : Option NumOrBool := none
  format : Option String := none
  pattern : Option String := none
  minLength : Option Int := none
  maxLength : Option Int := none
  enum : Option (List Json) := none
  gltf_enumNames : Option (List String) := none
  const : Option Json := none
  examples : Option (List Json) := none
  gltf_detailedDescription : Option String := none
  gltf_sectionDescription : Option String := none
  gltf_webgl : Option String := none

/-- A schema fragment (SchemaNode): the scalar core plus the recursive
positions used by the generator (properties, items, anyOf and
additionalProperties, the last being a boolean or a nested schema). -/
inductive SchemaNode where
  | mk (core : SchemaCore)
       (properties : Option (List (String × SchemaNode)))
       (items : Option SchemaNode)
       (anyOf : Option (List SchemaNode))
       (additionalProperties : Option (Sum Bool SchemaNode))

def SchemaNode.core : SchemaNode → SchemaCore
  | .mk c _ _ _ _ => c

def SchemaNode.properties : SchemaNode → Option (List (String × SchemaNode))
  | .mk _ p _ _ _ => p

def SchemaNode.items : SchemaNode → Option SchemaNode
  | .mk _ _ i _ _ => i

def SchemaNode.anyOf : SchemaNode → Option (List SchemaNode)
  | .mk _ _ _ a _ => a

def SchemaNode.additionalProperties : SchemaNode → Option (Sum Bool SchemaNode)
  | .mk _ _ _ _ ap => ap

/-- A schema node carrying only scalar fields. -/
def SchemaNode.ofCore (c : SchemaCore) : SchemaNode := .mk c none none none none

def SchemaNode.dollarSchema (s : SchemaNode) : Option String := s.core.dollarSchema

def SchemaNode.title (s : SchemaNode) : Option String := s.core.title

def SchemaNode.typeName (s : SchemaNode) : Option String := s.core.typeName

def SchemaNode.description (s : SchemaNode) : Option String := s.core.description

def SchemaNode.type (s : SchemaNode) : Option String := s.core.type

def SchemaNode.required (s : SchemaNode) : Option Bool := s.core.required

def SchemaNode.default (s : SchemaNode) : Option Json := s.core.default

def SchemaNode.minItems (s : SchemaNode) : Option Int := s.core.minItems

def SchemaNode.maxItems (s : SchemaNode) : Option Int := s.core.maxItems

def SchemaNode.uniqueItems (s : SchemaNode) : Option Bool := s.core.uniqueItems

def SchemaNode.minimum (s : SchemaNode) : Option Int := s.core.minimum

def SchemaNode.maximum (s : SchemaNode) : Option Int := s.core.maximum

def SchemaNode.exclusiveMinimum (s : SchemaNode) : Option NumOrBool := s.core.exclusiveMinimum

def SchemaNode.exclusiveMaximum (s : SchemaNode) : Option NumOrBool := s.core.exclusiveMaximum

def SchemaNode.format (s : SchemaNode) : Option String := s.core.format

def SchemaNode.pattern (s : SchemaNode) : Option String := s.core.pattern

def SchemaNode.minLength (s : SchemaNode) : Option Int := s.core.minLength

def SchemaNode.maxLength (s : SchemaNode) : Option Int := s.core.maxLength

def SchemaNode.enum (s : SchemaNode) : Option (List Json) := s.core.enum

def SchemaNode.gltf_enumNames (s : SchemaNode) : Option (List String) := s.core.gltf_enumNames

def SchemaNode.const (s : SchemaNode) : Option Json := s.core.const

def SchemaNode.examples (s : SchemaNode) : Option (List Json) := s.core.examples

def SchemaNode.gltf_detailedDescription (s : SchemaNode) : Option String := s.core.gltf_detailedDescription

def SchemaNode.gltf_sectionDescription (s : SchemaNode) : Option String := s.core.gltf_sectionDescription

def SchemaNode.gltf_webgl (s : SchemaNode) : Option String := s.core.gltf_webgl

def SchemaNode.withItems : SchemaNode → Option SchemaNode → SchemaNode
  | .mk c p _ a ap, i => .mk c p i a ap

def SchemaNode.withProperties : SchemaNode → Option (List (String × SchemaNode)) → SchemaNode
  | .mk c _ i a ap, p => .mk c p i a ap

def SchemaNode.withMinimum : SchemaNode → Option Int → SchemaNode
  | .mk c p i a ap, v => .mk { c with minimum := v } p i a ap

def SchemaNode.withMaximum : SchemaNode → Option Int → SchemaNode
  | .mk c p i a ap, v => .mk { c with maximum := v } p i a ap

def SchemaNode.withExclusiveMinimum : SchemaNode → Option NumOrBool → SchemaNode
  | .mk c p i a ap, v => .mk { c with exclusiveMinimum := v } p i a ap

def SchemaNode.withExclusiveMaximum : SchemaNode → Option NumOrBool → SchemaNode
  | .mk c p i a ap, v => .mk { c with exclusiveMaximum := v } p i a ap

/-- The auto-linking mode (enums.autoLinkOption from the out-of-scope
enums module). Modelled from the spec: callers may disable linking
entirely via a mode flag; otherwise every literal occurrence of a known
type name is rewritten into a link. -/
inductive AutoLinkOption where
  | off
  | aggressive
deriving DecidableEq, BEq

/-- The embed mode (enums.embedMode from the out-of-scope enums module).
Modelled from the spec: "writeIncludeStatements" emits only an include
directive, "referenceIncludeDocument" adds a schema embed link, and full
expansion renders everything. -/
inductive EmbedMode where
  | full
  | writeIncludeStatements
  | referenceIncludeDocument
deriving DecidableEq, BEq

/-- The JavaScript String.prototype.replace with a string pattern, which
replaces only the first occurrence, on character lists. -/
def replaceFirstAux (pat repl : List Char) : List Char → List Char
  | [] => []
  | c :: rest =>
    if List.isPrefixOf pat (c :: rest) then repl ++ (c :: rest).drop pat.length
    else c :: replaceFirstAux pat repl rest

/-- The JavaScript String.prototype.replace with a string pattern
(first occurrence only). -/
def jsReplaceFirst (s pat repl : String) : String :=
  ⟨replaceFirstAux pat.data repl.data s.data⟩

/-- Whether pat occurs as a contiguous substring of s. -/
def strContainsSub (s pat : String) : Bool :=
  go pat.data s.data
where
  go (pat : List Char) : List Char → Bool
    | [] => pat.isEmpty
    | c :: rest => List.isPrefixOf pat (c :: rest) || go pat rest

/-- Replace every non-overlapping occurrence of pat, scanning left to
right; the fuel argument (instantiated with the input length, which each
step consumes at least one character of) makes the recursion
structural. -/
def replaceAllAux (pat repl : List Char) : Nat → List Char → List Char
  | 0, l => l
  | _ + 1, [] => []
  | fuel + 1, c :: rest =>
    if List.isPrefixOf pat (c :: rest) then
      repl ++ replaceAllAux pat repl fuel (rest.drop (pat.length - 1))
    else c :: replaceAllAux pat repl fuel rest

/-- The JavaScript String.prototype.replace with a global regexp of a
plain pattern: every non-overlapping occurrence is replaced. -/
def jsReplaceAll (s pat repl : String) : String :=
  if pat.data.isEmpty then s
  else ⟨replaceAllAux pat.data repl.data s.data.length s.data⟩

/-- The JavaScript String.prototype.toLowerCase (on the ASCII titles this
generator handles). -/
def jsToLower (s : String) : String := ⟨s.data.map Char.toLower⟩

/-- Whether s starts with pat. -/
def strStartsWith (s pat : String) : Bool := List.isPrefixOf pat.data s.data

/-- Lexicographic comparison of character lists, as the JavaScript string
less-than-or-equal comparison. -/
def charListLe : List Char → List Char → Bool
  | [], _ => true
  | _ :: _, [] => false
  | a :: as, b :: bs => if a == b then charListLe as bs else decide (a < b)

def jsStringLe (a b : String) : Bool := charListLe a.data b.data

def insertSorted {α : Type} (le : α → α → Bool) (x : α) : List α → List α
  | [] => [x]
  | y :: rest => if le x y then x :: y :: rest else y :: insertSorted le x rest

/-- A stable insertion sort by a boolean comparison. -/
def sortByLe {α : Type} (le : α → α → Bool) : List α → List α
  | [] => []
  | x :: rest => insertSorted le x (sortByLe le rest)

namespace style

/-- Modelled from the spec: header markup at a given depth
(Markdown mode). -/
def getHeaderMarkdown (level : Nat) : String :=
  String.join (List.replicate level "#")

/-- Modelled from the spec: a bulleted list item at a given indentation
depth. -/
def bulletItem (item : String) (depth : Nat) : String :=
  String.join (List.replicate depth "    ") ++ "* " ++ item ++ "\n"

/-- Modelled from the spec: link construction from a display string to a
document anchor, used for table-of-contents entries. -/
def getTOCLink (displayString typeName : String) : String :=
  "[" ++ displayString ++ "](#reference-" ++ typeName ++ ")"

/-- Modelled from the spec: the checkmark marker carried by the required
column. -/
def requiredIcon : String := " ✓ "

/-- Modelled from the spec: the "must"/"shall" wording configured once
per run. -/
def mustKeyword : String := " must "

/-- Modelled from the spec: bold wrapping. -/
def bold (s : String) : String := "**" ++ s ++ "**"

/-- Modelled from the spec: the label styling of a named property-detail
bullet. -/
def propertyDetails (name : String) : String := bold name

/-- Modelled from the spec: the styling of a property name in the summary
table. -/
def propertyNameSummary (name : String) : String := bold name

/-- Modelled from the spec: the styling of a vendor-specific WebGL
label. -/
def propertyGltfWebGL (name : String) : String := bold name

/-- Modelled from the spec: type-name formatting (modelled as the
identity on the name). -/
def typeValue (t : String) : String := t

/-- Modelled from the spec: literal formatting of a numeric bound or
pattern (modelled as the identity on the text). -/
def minMax (s : String) : String := s

/-- Modelled from the spec: rewrite every literal occurrence of a known
type name inside free text into a link, unless linking is disabled. -/
def linkType (text : String) (type : String) : AutoLinkOption → String
  | .off => text
  | .aggressive =>
    jsReplaceAll text type
      ("[" ++ type ++ "](#reference-" ++ jsReplaceAll (jsToLower type) " " "." ++ ")")

/-- Modelled from the spec: literal/example-value formatting applied to an
already-stringified default value (modelled as the identity on the
text). -/
def defaultValueText (v : String) (_type : String) : String := v

/-- Modelled from the spec: literal/example-value formatting applied to a
raw JSON value. -/
def defaultValueLiteral (v : Json) (_type : Option String) : String := jsonStringify v

/-- Modelled from the spec: formatting of one allowed enum value. -/
def enumElement (v : Json) (_type : String) : String := jsonStringify v

/-- Modelled from the spec: table header markup. -/
def beginTable (columns : List String) : String :=
  "|" ++ String.intercalate "|" columns ++ "|\n|" ++
    String.intercalate "|" (columns.map fun _ => "---") ++ "|\n"

/-- Modelled from the spec: one table row. -/
def addTableRow (cells : List String) : String :=
  "|" ++ String.intercalate "|" cells ++ "|\n"

/-- Modelled from the spec: table end markup. -/
def endTable : String := "\n"

/-- Modelled from the spec: the section header of one type document; a
missing title becomes an inline warning string unless warnings are
suppressed. -/
def getSectionMarkdown (schema : SchemaNode) (headerLevel : Nat)
    (suppressWarnings : Bool) (_embedMode : EmbedMode) : String :=
  getHeaderMarkdown headerLevel ++ " " ++
    (schema.title.getD (if suppressWarnings then "" else "WETZEL_WARNING: title not defined")) ++
    "\n\n"

/-- Modelled from the spec: an include directive for a schema file. -/
def embedJsonSchema (fileName : String) (schemaRelativeBasePath : Option String) : String :=
  "include::" ++ schemaRelativeBasePath.getD "" ++ fileName ++ "\n\n"

/-- Modelled from the spec: an embed link to the raw schema of a type. -/
def getSchemaEmbedLink (fileName : String) (_schema : SchemaNode) : String :=
  "[" ++ fileName ++ "](" ++ fileName ++ ")"

/-- Modelled from the spec: plain link markup. -/
def getLinkMarkdown (text url : String) : String :=
  "[" ++ text ++ "](" ++ url ++ ")"

end style

/-- One entry of the resolved type graph: the schema, its file name, the
titles of its parents and the titles of its children. -/
structure TypeEntry where
  schema : Option SchemaNode
  fileName : String
  parents : List String
  children : List String

/-- The resolved type graph: an ordered map from type title to its
entry. -/
abbrev TypeGraph := List (String × TypeEntry)

def graphEntry (g : TypeGraph) (title : String) : Option TypeEntry :=
  List.lookup title g

/-- The parents list of a titled type (empty for a title not in the
graph, which the generator never queries). -/
def graphParents (g : TypeGraph) (title : String) : List String :=
  ((graphEntry g title).map TypeEntry.parents).getD []

/-- The children list of a titled type (empty for a title not in the
graph, which the generator never queries). -/
def graphChildren (g : TypeGraph) (title : String) : List String :=
  ((graphEntry g title).map TypeEntry.children).getD []

/-- Modelled from the spec: sortObject orders the type-graph entries by
title, ascending or descending (JavaScript string comparison). -/
def sortObject (g : TypeGraph) (ascending : Bool) : TypeGraph :=
  sortByLe (fun a b => if ascending then jsStringLe a.1 b.1 else jsStringLe b.1 a.1) g

/-- The JavaScript Array.prototype.sort default comparator on strings. -/
def jsSortStrings (l : List String) : List String :=
  sortByLe jsStringLe l

/-- The document identifier of a listed type: its explicit typeName when
present, else its title lowercased with spaces replaced by dots
(lib/generateMarkdown.js lines 120-123 and 149-152). -/
def tocTypeName (g : TypeGraph) (title : String) : String :=
  match (graphEntry g title).bind (fun e => e.schema.bind SchemaNode.typeName) with
  | some t => t
  | none => jsReplaceAll (jsToLower title) " " "."

/-- The top-level inclusion test of the table of contents
(lib/generateMarkdown.js line 119): the type is the root type, or has
more than one parent, or lists the root among its parents. -/
def tocTopLevelPred (rootTitle : Option String) (g : TypeGraph) (title : String) : Bool :=
  rootTitle == some title
    || decide (1 < (graphParents g title).length)
    || (match rootTitle with
        | some rt => (graphParents g title).contains rt
        | none => false)

/-- The titles for which the top-level loop of getTableOfContentsMarkdown
emits an entry, in iteration order. -/
def tocTopLevelTitles (rootTitle : Option String) (g : TypeGraph) : List String :=
  (g.map Prod.fst).filter (tocTopLevelPred rootTitle g)

/-- The children of a listed type that getRecursiveTOC recurses into:
exactly those with a single parent (lib/generateMarkdown.js line 147). -/
def tocNestedChildren (g : TypeGraph) (parentTitle : String) : List String :=
  (graphChildren g parentTitle).filter fun c => (graphParents g c).length == 1

/-- getRecursiveTOC (lib/generateMarkdown.js lines 143-159): appends
children elements to the table of contents, if and only if the child has
a single parent; the displayed child title strips the first occurrence of
the parent title followed by a space. The extra fuel argument bounds the
recursion depth (the JavaScript recursion is bounded by the call stack on
cyclic graphs; any fuel at least the graph size is exact on the acyclic
graphs the resolver produces). -/
def getRecursiveTOC (orderedTypes : TypeGraph) (parentTitle : String) (depth : Nat) : Nat → String
  | 0 => ""
  | fuel + 1 =>
    String.join ((tocNestedChildren orderedTypes parentTitle).map fun currentTitle =>
      let typeName := tocTypeName orderedTypes currentTitle
      let item := style.getTOCLink (jsReplaceFirst currentTitle (parentTitle ++ " ") "") typeName
      style.bulletItem item depth ++ getRecursiveTOC orderedTypes currentTitle (depth + 1) fuel)

/-- getTableOfContentsMarkdown (lib/generateMarkdown.js lines 113-132):
the Objects header, then one top-level bullet per included type; the root
entry is tagged "(root object)" and is not recursed into, every other
top-level entry is followed by its recursive single-parent children. -/
def getTableOfContentsMarkdown (schema : SchemaNode) (orderedTypes : TypeGraph)
    (headerLevel : Nat) : String :=
  style.getHeaderMarkdown headerLevel ++ " Objects\n" ++
    String.join ((tocTopLevelTitles schema.title orderedTypes).map fun title =>
      let typeName := tocTypeName orderedTypes title
      let item := style.getTOCLink title typeName ++
        (if schema.title == some title then " (root object)" else "")
      style.bulletItem item 0 ++
        (if schema.title == some title then ""
         else getRecursiveTOC orderedTypes title 1 (orderedTypes.length + 1)))

/-- getPropertyType (lib/generateMarkdown.js lines 628-661): the explicit
typeName wins, then the type field, then the first anyOf branch declaring
a type. -/
def getPropertyType (schema : SchemaNode) : Option String :=
  match schema.typeName with
  | some typeName => some typeName
  | none =>
    match schema.type with
    | some type => some type
    | none =>
      match schema.anyOf with
      | none => none
      | some propertyAnyOf => propertyAnyOf.findSome? SchemaNode.type

/-- The inside of the bracketed cardinality suffix of an array type
(lib/generateMarkdown.js lines 471-484). -/
def insideBrackets (minItems maxItems : Option Int) : String :=
  match minItems, maxItems with
  | some mn, some mx => if mn == mx then toString mn else toString mn ++ "-" ++ toString mx
  | some mn, none => toString mn ++ "-*"
  | none, some mx => "*-" ++ toString mx
  | none, none => ""

/-- The bracketed cardinality suffix of an array type
(lib/generateMarkdown.js line 486). -/
def arrayInfo (minItems maxItems : Option Int) : String :=
  "[" ++ insideBrackets minItems maxItems ++ "]"

/-- The string a declared default renders as
(lib/generateMarkdown.js lines 516-523): arrays are bracket-joined via
Array.prototype.toString, plain objects (and null, whose typeof is
object) go through JSON.stringify, scalars are coerced to strings. -/
def jsDefaultToString : Json → String
  | .arr elems => "[" ++ jsArrayToString elems ++ "]"
  | .obj fields => jsonStringify (.obj fields)
  | .null => jsonStringify .null
  | .bool b => if b then "true" else "false"
  | .num n => toString n
  | .str s => s

/-- The required field of a property descriptor
(lib/generateMarkdown.js lines 510-529). -/
def requiredString (property : SchemaNode) (type : String) : String :=
  if property.required == some true then style.requiredIcon ++ "Yes"
  else
    match property.default with
    | some propertyDefault =>
      "No, default: " ++ style.defaultValueText (jsDefaultToString propertyDefault) type
    | none => "No"

/-- A property descriptor (the PropertyDescriptor of the spec), as built
by getPropertySummary. -/
structure PropertySummary where
  type : String
  formattedType : String
  description : Option String
  required : String

def jsStringOrUndefined (o : Option String) : String := o.getD "undefined"

/-- Rewrite free text, linking every known type name; absent text stays
absent (lib/generateMarkdown.js lines 674-680). -/
def autoLinkDescription (description : Option String) (knownTypes : List String)
    (autoLink : AutoLinkOption) : Option String :=
  description.map fun d => knownTypes.foldl (fun acc t => style.linkType acc t autoLink) d

/-- getPropertySummary (lib/generateMarkdown.js lines 466-537): type
resolution, array bracket formatting (the item type replaces the base
type when items declare one), description auto-linking and the required
string. -/
def getPropertySummary (property : SchemaNode) (knownTypes : List String)
    (autoLink : AutoLinkOption) : PropertySummary :=
  let type0 := (getPropertyType property).getD "any"
  let formattedType0 := style.linkType (style.typeValue type0) type0 autoLink
  let tf : String × String :=
    if type0 == "array" then
      let arrayInfoStr := arrayInfo property.minItems property.maxItems
      match property.items with
      | some items =>
        match items.type with
        | some itemsType =>
          if itemsType == "object" then
            let t := jsStringOrUndefined (getPropertyType items) ++ arrayInfoStr
            (t, style.typeValue t)
          else
            let t := itemsType ++ arrayInfoStr
            (t, style.typeValue t)
        | none =>
          let t := type0 ++ arrayInfoStr
          (t, style.typeValue t)
      | none =>
        let t := type0 ++ arrayInfoStr
        (t, style.typeValue t)
    else (type0, formattedType0)
  { type := tf.1
    formattedType := tf.2
    description := autoLinkDescription property.description knownTypes autoLink
    required := requiredString property tf.1 }

/-- The required cell of one summary-table row
(lib/generateMarkdown.js line 265): the checkmark icon is prepended only
when the descriptor required string is exactly "Yes". -/
def summaryRequiredCell (summary : PropertySummary) : String :=
  (if summary.required == "Yes" then style.requiredIcon else "") ++ summary.required

/-- createPropertiesSummary (lib/generateMarkdown.js lines 249-274). -/
def createPropertiesSummary (schema : SchemaNode) (knownTypes : List String)
    (autoLink : AutoLinkOption) : String :=
  match schema.properties with
  | some properties =>
    if properties.length > 0 then
      style.beginTable ["Property", "Type", "Description", "Required"] ++
        String.join (properties.map fun np =>
          let summary := getPropertySummary np.2 knownTypes autoLink
          style.addTableRow [style.propertyNameSummary np.1, summary.formattedType,
            summary.description.getD "", summaryRequiredCell summary]) ++
        style.endTable
    else ""
  | none => ""

/-- The bullet text one anyOf branch contributes to the enum listing, or
none when the branch is skipped (lib/generateMarkdown.js lines 587-613):
a const value wins; otherwise the first element of a non-empty enum array
is used; otherwise the branch is skipped. A declared description is
appended. -/
def anyOfBranchString (element : SchemaNode) (type : String) : Option String :=
  let descSuffix := match element.description with
    | some d => " " ++ d
    | none => ""
  match element.const with
  | some constValue => some (style.enumElement constValue type ++ descSuffix)
  | none =>
    match element.enum with
    | some (v :: _) => some (style.enumElement v type ++ descSuffix)
    | _ => none

/-- getAnyOfEnumString (lib/generateMarkdown.js lines 579-619). -/
def getAnyOfEnumString (schema : SchemaNode) (type : String) (depth : Nat) : Option String :=
  match schema.anyOf with
  | none => none
  | some propertyAnyOf =>
    some (String.join (propertyAnyOf.filterMap fun element =>
      (anyOfBranchString element type).map fun s => style.bulletItem s depth))

/-- getEnumString (lib/generateMarkdown.js lines 549-568): a direct enum
array renders one bullet per value, appending the positionally matching
gltf_enumNames entry when a names array is present (a missing position
prints as undefined, as the JavaScript template coercion does); without a
direct enum the anyOf fallback is used. -/
def getEnumString (schema : SchemaNode) (type : String) (depth : Nat) : Option String :=
  match schema.enum with
  | none => getAnyOfEnumString schema type depth
  | some propertyEnum =>
    some (String.join (propertyEnum.enum.map fun iv =>
      let element := style.enumElement iv.2 type ++
        (match schema.gltf_enumNames with
         | some names => " " ++ (names.getD iv.1 "undefined")
         | none => "")
      style.bulletItem element depth))

/-- JavaScript truthiness of a defined-and-truthy exclusivity field:
defined(x) && x. -/
def numOrBoolTruthy : Option NumOrBool → Bool
  | some (.bool b) => b
  | some (.num n) => n != 0
  | none => false

/-- The in-place downgrade of a newer-dialect items schema
(lib/generateMarkdown.js lines 324-334): a numeric exclusiveMinimum
becomes the minimum with the boolean exclusive flag, and likewise for
exclusiveMaximum. -/
def downgradeItems (items : SchemaNode) : SchemaNode :=
  let items :=
    match items.exclusiveMinimum with
    | some (.num n) => (items.withMinimum (some n)).withExclusiveMinimum (some (.bool true))
    | _ => items
  match items.exclusiveMaximum with
  | some (.num n) => (items.withMaximum (some n)).withExclusiveMaximum (some (.bool true))
  | _ => items

/-- The numeric-range bullets for array items
(lib/generateMarkdown.js lines 336-349), applied after the downgrade. -/
def itemsRangeBullets (items : SchemaNode) (eachElementInTheArrayMust : String) : String :=
  let minString := if numOrBoolTruthy items.exclusiveMinimum then "greater than"
    else "greater than or equal to"
  let maxString := if numOrBoolTruthy items.exclusiveMaximum then "less than"
    else "less than or equal to"
  match items.minimum, items.maximum with
  | some mn, some mx =>
    style.bulletItem (eachElementInTheArrayMust ++ "be " ++ minString ++ " " ++
      style.minMax (toString mn) ++ " and " ++ maxString ++ " " ++
      style.minMax (toString mx) ++ ".") 1
  | some mn, none =>
    style.bulletItem (eachElementInTheArrayMust ++ "be " ++ minString ++ " " ++
      style.minMax (toString mn) ++ ".") 1
  | none, some mx =>
    style.bulletItem (eachElementInTheArrayMust ++ "be " ++ maxString ++ " " ++
      style.minMax (toString mx) ++ ".") 1
  | none, none => ""

/-- The length-range bullets for array items
(lib/generateMarkdown.js lines 351-358). -/
def itemsLengthBullets (items : SchemaNode) (eachElementInTheArrayMust : String) : String :=
  match items.minLength, items.maxLength with
  | some mn, some mx =>
    style.bulletItem (eachElementInTheArrayMust ++ "have length between " ++
      style.minMax (toString mn) ++ " and " ++ style.minMax (toString mx) ++ ".") 1
  | some mn, none =>
    style.bulletItem (eachElementInTheArrayMust ++ "have length greater than or equal to " ++
      style.minMax (toString mn) ++ ".") 1
  | none, some mx =>
    style.bulletItem (eachElementInTheArrayMust ++ "have length less than or equal to " ++
      style.minMax (toString mx) ++ ".") 1
  | none, none => ""

/-- The Minimum bullet of one property
(lib/generateMarkdown.js lines 368-377): a numeric exclusiveMinimum is
printed directly as a strict bound; otherwise a declared minimum is
printed as strict or non-strict depending on the boolean flag. -/
def minimumBullet (property : SchemaNode) : String :=
  match property.exclusiveMinimum with
  | some (.num n) =>
    style.bulletItem (style.propertyDetails "Minimum" ++ ": " ++
      style.minMax (" > " ++ toString n)) 0
  | _ =>
    match property.minimum with
    | some minimum =>
      let exclusiveMinimum := numOrBoolTruthy property.exclusiveMinimum
      style.bulletItem (style.propertyDetails "Minimum" ++ ": " ++
        style.minMax ((if exclusiveMinimum then " > " else " >= ") ++ toString minimum)) 0
    | none => ""

/-- The Maximum bullet of one property
(lib/generateMarkdown.js lines 379-388). -/
def maximumBullet (property : SchemaNode) : String :=
  match property.exclusiveMaximum with
  | some (.num n) =>
    style.bulletItem (style.propertyDetails "Maximum" ++ ": " ++
      style.minMax (" < " ++ toString n)) 0
  | _ =>
    match property.maximum with
    | some maximum =>
      let exclusiveMaximum := numOrBoolTruthy property.exclusiveMaximum
      style.bulletItem (style.propertyDetails "Maximum" ++ ": " ++
        style.minMax ((if exclusiveMaximum then " < " else " <= ") ++ toString maximum)) 0
    | none => ""

/-- The additionalProperties detail bullets of one property
(lib/generateMarkdown.js lines 415-442), emitted only when
additionalProperties is a schema object. -/
def additionalPropsBullets (property : SchemaNode) (autoLink : AutoLinkOption) : String :=
  match property.additionalProperties with
  | some (.inr additionalProperties) =>
    match additionalProperties.anyOf with
    | some branches =>
      style.bulletItem (style.propertyDetails "Property types allowed" ++ ":") 0 ++
        String.join (branches.map fun propType =>
          match getPropertyType propType with
          | some propTypeName => style.bulletItem propTypeName 1
          | none => "")
    | none =>
      match getPropertyType additionalProperties with
      | some additionalPropertiesType =>
        let formattedType :=
          if additionalProperties.type == some "object" && property.title.isSome then
            style.linkType (jsStringOrUndefined property.title)
              (jsStringOrUndefined property.title) autoLink
          else style.typeValue additionalPropertiesType
        style.bulletItem (style.propertyDetails "Type of each property" ++ ": " ++
          formattedType) 0
      | none => ""
  | _ => ""

/-- The details subsection of one property
(lib/generateMarkdown.js lines 291-459), returning the markdown together
with the property as left behind by the render pass (the in-place items
downgrade is the only mutation). -/
def renderPropertyDetails (name : String) (property : SchemaNode) (headerMd : String)
    (knownTypes : List String) (autoLink : AutoLinkOption) : String × SchemaNode :=
  let summary := getPropertySummary property knownTypes autoLink
  let type := summary.type
  let md := headerMd ++ " " ++ name ++ "\n\n"
  let md := md ++
    (match autoLinkDescription property.gltf_detailedDescription knownTypes autoLink with
     | some detailedDescription => detailedDescription ++ "\n\n"
     | none =>
       match summary.description with
       | some d => d ++ "\n\n"
       | none => "")
  let md := md ++ style.bulletItem (style.propertyDetails "Type" ++ ": " ++
    summary.formattedType) 0
  let eachElementInTheArrayMust := "Each element in the array" ++ style.mustKeyword
  let md := md ++
    (if property.uniqueItems == some true then
      style.bulletItem (eachElementInTheArrayMust ++ "be unique.") 1
     else "")
  let itemsPart : String × SchemaNode :=
    match property.items with
    | none => ("", property)
    | some items0 =>
      let items := downgradeItems items0
      let itemsMd := itemsRangeBullets items eachElementInTheArrayMust ++
        itemsLengthBullets items eachElementInTheArrayMust ++
        (match getEnumString items type 2 with
         | some itemsString =>
           style.bulletItem (eachElementInTheArrayMust ++
             "be one of the following values:") 1 ++ itemsString
         | none => "")
      (itemsMd, property.withItems (some items))
  let md := md ++ itemsPart.1
  let property := itemsPart.2
  let md := md ++ style.bulletItem (style.propertyDetails "Required" ++ ": " ++
    summary.required) 0
  let md := md ++ minimumBullet property
  let md := md ++ maximumBullet property
  let md := md ++
    (match property.format with
     | some format => style.bulletItem (style.propertyDetails "Format" ++ ": " ++ format) 0
     | none => "")
  let md := md ++
    (match property.pattern with
     | some pattern =>
       style.bulletItem (style.propertyDetails "Pattern" ++ ": " ++ style.minMax pattern) 0
     | none => "")
  let md := md ++
    (match property.minLength with
     | some minLength =>
       style.bulletItem (style.propertyDetails "Minimum Length" ++
         style.minMax (": >= " ++ toString minLength)) 0
     | none => "")
  let md := md ++
    (match property.maxLength with
     | some maxLength =>
       style.bulletItem (style.propertyDetails "Maximum Length" ++
         style.minMax (": <= " ++ toString maxLength)) 0
     | none => "")
  let md := md ++
    (match getEnumString property type 1 with
     | some enumString =>
       style.bulletItem (style.propertyDetails "Allowed values" ++ ":") 0 ++ enumString
     | none => "")
  let md := md ++ additionalPropsBullets property autoLink
  let md := md ++
    (match property.examples with
     | some examples =>
       style.bulletItem (style.propertyDetails "Examples" ++ ":") 0 ++
         String.join (examples.map fun ex =>
           style.bulletItem (style.defaultValueLiteral ex (some type)) 1)
     | none => "")
  let md := md ++
    (match property.gltf_webgl with
     | some webgl =>
       style.bulletItem (style.propertyGltfWebGL "Related WebGL functions" ++ ": " ++
         webgl) 0
     | none => "")
  (md ++ "\n", property)

/-- createPropertiesDetails (lib/generateMarkdown.js lines 286-464): the
literal Properties header, one subsection per property in declaration
order, and the schema as left behind by the render pass (its properties
carry the in-place items downgrades). -/
def createPropertiesDetails (schema : SchemaNode) (title : String) (headerLevel : Nat)
    (knownTypes : List String) (autoLink : AutoLinkOption) : String × SchemaNode :=
  let headerMd := style.getHeaderMarkdown headerLevel
  let _variableTitle := schema.typeName.getD title
  match schema.properties with
  | none => ("## Properties\n" ++ "\n", schema)
  | some properties =>
    let rendered := properties.map fun np =>
      (np.1, renderPropertyDetails np.1 np.2 headerMd knownTypes autoLink)
    ("## Properties\n" ++ String.join (rendered.map fun r => r.2.1) ++ "\n",
     schema.withProperties (some (rendered.map fun r => (r.1, r.2.2))))

/-- createExamples (lib/generateMarkdown.js lines 276-284). -/
def createExamples (schema : SchemaNode) (headerLevel : Nat) : String :=
  match schema.examples with
  | none => ""
  | some examples =>
    style.getHeaderMarkdown headerLevel ++ " Examples" ++ "\n\n" ++
      String.join (examples.map fun ex =>
        style.bulletItem (style.defaultValueLiteral ex schema.type) 0)

/-- getSchemaMarkdown (lib/generateMarkdown.js lines 175-245): the
markdown for the first-class elements of one schema; an undefined schema
renders nothing. -/
def getSchemaMarkdown (schemaOpt : Option SchemaNode) (fileName : String) (headerLevel : Nat)
    (suppressWarnings : Bool) (schemaRelativeBasePath : Option String)
    (knownTypes : List String) (autoLink : AutoLinkOption) (embedMode : EmbedMode) : String :=
  match schemaOpt with
  | none => ""
  | some schema =>
    let md := style.getSectionMarkdown schema headerLevel suppressWarnings embedMode
    if embedMode == EmbedMode.writeIncludeStatements then
      md ++ style.embedJsonSchema fileName schemaRelativeBasePath
    else
      let md := md ++
        (match autoLinkDescription schema.description knownTypes autoLink with
         | some value => value ++ "\n\n"
         | none => "")
      let md := md ++
        (match schema.gltf_sectionDescription with
         | some extendedDescription =>
           (autoLinkDescription (some extendedDescription) knownTypes autoLink).getD "" ++
             "\n\n"
         | none => "")
      let schemaType := schema.type
      let md := md ++
        (match schema.gltf_webgl with
         | some webgl =>
           style.propertyGltfWebGL "Related WebGL functions" ++ ": " ++ webgl ++ "\n\n"
         | none => "")
      if schemaType == some "object" then
        let md := md ++ createPropertiesSummary schema knownTypes autoLink
        let md := md ++
          (match schema.additionalProperties with
           | some (.inl false) => "Additional properties are not allowed.\n\n"
           | _ => "Additional properties are allowed.\n\n")
        let md := md ++
          (if embedMode == EmbedMode.referenceIncludeDocument then
            style.bulletItem (style.bold "JSON schema" ++ ": " ++
              style.getSchemaEmbedLink fileName schema) 0 ++ "\n"
           else
            match schemaRelativeBasePath with
            | some basePath =>
              let basePath :=
                if List.isSuffixOf "/".data basePath.data then basePath else basePath ++ "/"
              style.bulletItem (style.bold "JSON schema" ++ ": " ++
                style.getLinkMarkdown fileName (jsReplaceAll basePath "\\" "/" ++ fileName)) 0 ++
                "\n"
            | none => "")
        let title := schema.title.getD
          (if suppressWarnings then "" else "WETZEL_WARNING: title not defined")
        let details := createPropertiesDetails schema title (headerLevel + 1) knownTypes autoLink
        md ++ details.1 ++ createExamples details.2 headerLevel
      else md

def numOrBoolToJson : NumOrBool → Json
  | .num n => .num n
  | .bool b => .bool b

/-- The JSON encoding of the scalar fields of a schema, present fields
only, in field-declaration order. -/
def schemaCoreJsonFields (c : SchemaCore) : List (String × Json) :=
  (match c.dollarSchema with | some v => [("$schema", Json.str v)] | none => []) ++
  (match c.title with | some v => [("title", Json.str v)] | none => []) ++
  (match c.typeName with | some v => [("typeName", Json.str v)] | none => []) ++
  (match c.description with | some v => [("description", Json.str v)] | none => []) ++
  (match c.type with | some v => [("type", Json.str v)] | none => []) ++
  (match c.required with | some v => [("required", Json.bool v)] | none => []) ++
  (match c.default with | some v => [("default", v)] | none => []) ++
  (match c.minItems with | some v => [("minItems", Json.num v)] | none => []) ++
  (match c.maxItems with | some v => [("maxItems", Json.num v)] | none => []) ++
  (match c.uniqueItems with | some v => [("uniqueItems", Json.bool v)] | none => []) ++
  (match c.minimum with | some v => [("minimum", Json.num v)] | none => []) ++
  (match c.maximum with | some v => [("maximum", Json.num v)] | none => []) ++
  (match c.exclusiveMinimum with
   | some v => [("exclusiveMinimum", numOrBoolToJson v)] | none => []) ++
  (match c.exclusiveMaximum with
   | some v => [("exclusiveMaximum", numOrBoolToJson v)] | none => []) ++
  (match c.format with | some v => [("format", Json.str v)] | none => []) ++
  (match c.pattern with | some v => [("pattern", Json.str v)] | none => []) ++
  (match c.minLength with | some v => [("minLength", Json.num v)] | none => []) ++
  (match c.maxLength with | some v => [("maxLength", Json.num v)] | none => []) ++
  (match c.enum with | some v => [("enum", Json.arr v)] | none => []) ++
  (match c.gltf_enumNames with
   | some v => [("gltf_enumNames", Json.arr (v.map Json.str))] | none => []) ++
  (match c.const with | some v => [("const", v)] | none => []) ++
  (match c.examples with | some v => [("examples", Json.arr v)] | none => []) ++
  (match c.gltf_detailedDescription with
   | some v => [("gltf_detailedDescription", Json.str v)] | none => []) ++
  (match c.gltf_sectionDescription with
   | some v => [("gltf_sectionDescription", Json.str v)] | none => []) ++
  (match c.gltf_webgl with | some v => [("gltf_webgl", Json.str v)] | none => [])

/-- The JSON encoding of a schema node, with a depth budget on the
recursive positions (JSON.stringify itself throws on cyclic structures;
any budget at least the nesting depth of the value is exact, and the
budget used below exceeds the depth of every schema in this
development). -/
def schemaToJson : Nat → SchemaNode → Json
  | 0, _ => Json.null
  | fuel + 1, .mk core props items anyOf addProps =>
    Json.obj (schemaCoreJsonFields core ++
      (match props with
       | some ps => [("properties", Json.obj (ps.map fun np => (np.1, schemaToJson fuel np.2)))]
       | none => []) ++
      (match items with
       | some i => [("items", schemaToJson fuel i)]
       | none => []) ++
      (match anyOf with
       | some branches => [("anyOf", Json.arr (branches.map (schemaToJson fuel)))]
       | none => []) ++
      (match addProps with
       | some (.inl b) => [("additionalProperties", Json.bool b)]
       | some (.inr s) => [("additionalProperties", schemaToJson fuel s)]
       | none => []))

/-- JSON.stringify(orderedTypes), as executed by generateMarkdown on the
ordered type graph (lib/generateMarkdown.js line 69): each entry is the
object with the schema, fileName, parents and children keys. -/
def stringifyGraph (g : TypeGraph) : String :=
  jsonStringify (Json.obj (g.map fun te =>
    (te.1, Json.obj (
      (match te.2.schema with
       | some s => [("schema", schemaToJson 32 s)]
       | none => []) ++
      [("fileName", Json.str te.2.fileName),
       ("parents", Json.arr (te.2.parents.map Json.str)),
       ("children", Json.arr (te.2.children.map Json.str))]))))

/-- Modelled from the spec: the Resolver collaborator contract —
resolution returns the resolved root schema and the referenced-schemas
type graph. The fileName, searchPath, ignorableTypes and debug arguments
of the JavaScript resolvers are folded into the function value. -/
structure Resolved where
  schema : SchemaNode
  referencedSchemas : TypeGraph

/-- The configuration options consumed by generateMarkdown. The
searchPath, fileName, ignorableTypes and debug options are folded into
the resolver parameters, and the styleMode, checkmark and mustKeyword
options configure the out-of-scope style layer, which is modelled here
with a fixed Markdown-mode configuration. -/
structure Options where
  schema : SchemaNode
  suppressWarnings : Bool := false
  writeTOC : Bool := false
  headerLevel : Nat := 1
  schemaRelativeBasePath : Option String := none
  autoLink : AutoLinkOption := AutoLinkOption.off
  embedMode : EmbedMode := EmbedMode.full

/-- The observable outcome of a completed generation run: the ordered
file writes it issues and the value it returns. -/
structure GenOutput where
  writes : List (String × String)
  ret : String
deriving DecidableEq

/-- The per-type loop of generateMarkdown
(lib/generateMarkdown.js lines 73-97): each type whose rendered markdown
is non-empty is written to output/<filename>.md, where the filename is
the explicit typeName or else the lowercased title; a type with neither
(or with no schema) makes the JavaScript throw, modelled as none. -/
def writeLoop (types : TypeGraph) (headerLevel : Nat) (suppressWarnings : Bool)
    (schemaRelativeBasePath : Option String) (knownTypes : List String)
    (autoLink : AutoLinkOption) (embedMode : EmbedMode) : Option (List (String × String)) :=
  match types with
  | [] => some []
  | (_, entry) :: rest =>
    let md := getSchemaMarkdown entry.schema entry.fileName headerLevel suppressWarnings
      schemaRelativeBasePath knownTypes autoLink embedMode
    let restWrites := writeLoop rest headerLevel suppressWarnings schemaRelativeBasePath
      knownTypes autoLink embedMode
    if md != "" then
      match entry.schema with
      | none => none
      | some s =>
        match
          (match s.typeName with
           | some tn => some tn
           | none => s.title.map jsToLower) with
        | none => none
        | some filename =>
          restWrites.map fun ws => ("output/" ++ filename ++ ".md", md) :: ws
    else restWrites

/-- generateMarkdown (lib/generateMarkdown.js lines 18-100): dialect
dispatch on the $schema field (a missing $schema leaves resolved null and
the dereference on line 55 throws, modelled as none), the unrecognized
dialect warning, the one-time ordering and child sort of the type graph,
the optional table of contents, the overwrite of the accumulated markdown
with JSON.stringify of the graph, the debug write of output/text.md, the
per-type writes and the empty-string return value. -/
def generateMarkdown (resolve3 resolve4 : SchemaNode → Resolved)
    (options : Options) : Option GenOutput :=
  match options.schema.dollarSchema with
  | none => none
  | some schemaRef =>
    let resolved :=
      if schemaRef == "http://json-schema.org/draft-03/schema" then resolve3 options.schema
      else resolve4 options.schema
    let md :=
      if schemaRef != "http://json-schema.org/draft-03/schema"
          && !options.suppressWarnings
          && schemaRef != "http://json-schema.org/draft-04/schema"
          && schemaRef != "http://json-schema.org/draft-07/schema"
          && schemaRef != "https://json-schema.org/draft/2020-12/schema" then
        "> WETZEL_WARNING: Unrecognized JSON Schema.\n\n"
      else ""
    let schema := resolved.schema
    let orderedTypes := (sortObject resolved.referencedSchemas true).map fun te =>
      (te.1, { te.2 with children := jsSortStrings te.2.children })
    let orderedTypesDescending := sortObject resolved.referencedSchemas false
    let knownTypes := orderedTypesDescending.map Prod.fst
    let md :=
      if options.writeTOC then
        md ++ getTableOfContentsMarkdown schema orderedTypes options.headerLevel
      else md
    let md := stringifyGraph orderedTypes
    (writeLoop orderedTypes (options.headerLevel + 1) options.suppressWarnings
        options.schemaRelativeBasePath knownTypes options.autoLink options.embedMode).map
      fun writes => { writes := ("output/text.md", md) :: writes, ret := "" }

/-- The state effect of rendering one property: the items fragment, when
present, is left downgraded in place; nothing else changes. -/
def downgradeProperty (p : SchemaNode) : SchemaNode :=
  match p.items with
  | some i => p.withItems (some (downgradeItems i))
  | none => p

/-- The state effect of one createPropertiesDetails pass on a schema. -/
def downgradeSchemaProperties (s : SchemaNode) : SchemaNode :=
  match s.properties with
  | some props => s.withProperties (some (props.map fun np => (np.1, downgradeProperty np.2)))
  | none => s

/- Concrete inputs used by the claim theorems. -/

def c1RootSchema : SchemaNode := .ofCore
  { dollarSchema := some "http://json-schema.org/draft-04/schema", title := some "Root" }

def c1Graph : TypeGraph :=
  [("Root", { schema := some c1RootSchema, fileName := "root.json",
              parents := [], children := [] })]

def c1Resolve : SchemaNode → Resolved :=
  fun s => { schema := s, referencedSchemas := c1Graph }

def c1Options : Options :=
  { schema := c1RootSchema, writeTOC := true, suppressWarnings := true }

def c2MissingOptions : Options :=
  { schema := .ofCore { title := some "NoDialect" } }

def c2Resolve : SchemaNode → Resolved :=
  fun s => { schema := s, referencedSchemas := [] }

def c2UnknownOptions : Options :=
  { schema := .ofCore { dollarSchema := some "http://example.com/my-schema",
                        title := some "X" } }

def c3ReqProp : SchemaNode := .ofCore { type := some "integer", required := some true }

def c3DefProp : SchemaNode := .ofCore
  { type := some "integer", required := some false, default := some (Json.num 2) }

def c4RootSchema : SchemaNode := .ofCore { title := some "Root" }

def c4ChildSchema : SchemaNode := .ofCore { title := some "Root Child" }

def c4RootEntry : TypeEntry :=
  { schema := some c4RootSchema, fileName := "root.json",
    parents := [], children := ["Root Child"] }

def c4ChildEntry : TypeEntry :=
  { schema := some c4ChildSchema, fileName := "child.json",
    parents := ["Root"], children := [] }

def c4Graph : TypeGraph := [("Root", c4RootEntry), ("Root Child", c4ChildEntry)]

def c5Items : SchemaNode := .ofCore
  { type := some "number", exclusiveMinimum := some (.num 5) }

def c5Prop : SchemaNode := .mk { type := some "array" } none (some c5Items) none none

def c5Schema : SchemaNode :=
  .mk { type := some "object", title := some "T" } (some [("foo", c5Prop)]) none none none

/-- The field observation separating the schema before and after the
render pass: the exclusiveMinimum of the items of the first property. -/
def c5Probe (s : SchemaNode) : Option NumOrBool :=
  match s.properties with
  | some ((_, p) :: _) => p.items.bind SchemaNode.exclusiveMinimum
  | _ => none

def c6NumProp : SchemaNode := .ofCore { exclusiveMinimum := some (.num 5) }

def c6BoolProp : SchemaNode := .ofCore
  { minimum := some 5, exclusiveMinimum := some (.bool true) }

def c7BaseSchema : SchemaNode := .ofCore { title := some "Base" }

def c7KidSchema : SchemaNode := .ofCore { title := some "Base Kid" }

def c7BaseEntry : TypeEntry :=
  { schema := some c7BaseSchema, fileName := "base.json",
    parents := [], children := ["Base Kid"] }

def c7KidEntry : TypeEntry :=
  { schema := some c7KidSchema, fileName := "kid.json",
    parents := ["Base"], children := [] }

def c7Graph : TypeGraph := [("Base", c7BaseEntry), ("Base Kid", c7KidEntry)]

def c9Schema : SchemaNode := .mk {} none none
  (some [.ofCore { type := some "integer" },
         .ofCore { const := some (Json.num 0), description := some "Zero" },
         .ofCore { const := some (Json.num 1), description := some "One" }]) none

def c9Multi : SchemaNode := .mk {} none none
  (some [.ofCore { enum := some [Json.num 1, Json.num 2] }]) none

def c9WitBranch : SchemaNode := .ofCore { enum := some [Json.num 7] }

def c10Resolve : SchemaNode → Resolved :=
  fun s => { schema := s, referencedSchemas := [] }

def c10Options : Options :=
  { schema := .ofCore { dollarSchema := some "http://json-schema.org/draft-04/schema" } }

/- Helper lemmas. -/

theorem no_default_ne_yes (x : String) : "No, default: " ++ x ≠ "Yes" := by
  intro h
  have hl := congrArg String.length h
  rw [String.length_append] at hl
  have h1 : ("No, default: " : String).length = 13 := rfl
  have h2 : ("Yes" : String).length = 3 := rfl
  rw [h1, h2] at hl
  omega

/- Claim theorems. -/

/-- C2 counterexample: on a root schema with no $schema field, generation
aborts (the JavaScript dereferences the null resolved value), whatever
the resolvers would return, rather than proceeding on the draft-04
path. -/
theorem C2_missing_schema_aborts :
    generateMarkdown c2Resolve c2Resolve c2MissingOptions = none := rfl

/-- C2 amended: generation aborts exactly when the root schema has no
$schema field; a present but unrecognized $schema value does proceed
through the draft-04-compatible resolution path. -/
theorem C2_missing_schema_amended :
    (∀ resolve3 resolve4 : SchemaNode → Resolved,
      generateMarkdown resolve3 resolve4 c2MissingOptions = none) ∧
    (generateMarkdown c2Resolve c2Resolve c2UnknownOptions).isSome = true :=
  ⟨fun _ _ => rfl, by decide⟩

/-- C4 counterexample: for a root titled Root with a single-parent child
titled Root Child, the table of contents lists the child as a top-level
bullet under its full title; no nested (indented) bullet and no stripped
label Child appear anywhere in it. -/
theorem C4_child_toc_counterexample :
    getTableOfContentsMarkdown c4RootSchema c4Graph 1 =
      "# Objects\n* [Root](#reference-root) (root object)\n* [Root Child](#reference-root.child)\n" ∧
    strContainsSub (getTableOfContentsMarkdown c4RootSchema c4Graph 1) "[Child]" = false ∧
    strContainsSub (getTableOfContentsMarkdown c4RootSchema c4Graph 1) "    * " = false := by
  exact ⟨by decide, by decide, by decide⟩

/-- C4 amended: the builder never recurses into the root entry, so a
direct child of the root appears as its own top-level bullet labeled with
its full title (no prefix stripping); prefix-stripped nesting applies
only to children of non-root entries. -/
theorem C4_child_toc_amended :
    getTableOfContentsMarkdown c4RootSchema c4Graph 1 =
      style.getHeaderMarkdown 1 ++ " Objects\n" ++
        style.bulletItem (style.getTOCLink "Root" "root" ++ " (root object)") 0 ++
        style.bulletItem (style.getTOCLink "Root Child" "root.child") 0 := by
  decide

/-- C8: the bracketed cardinality suffix of an array-typed property is
the exact count when minItems equals maxItems, the min-max range when
both are present and differ, min-* with only a minimum, *-max with only
a maximum, and empty brackets with neither. -/
theorem C8_array_brackets (a b : Int) (h : a ≠ b) :
    arrayInfo (some a) (some a) = "[" ++ toString a ++ "]" ∧
    arrayInfo (some a) (some b) = "[" ++ (toString a ++ "-" ++ toString b) ++ "]" ∧
    arrayInfo (some a) none = "[" ++ (toString a ++ "-*") ++ "]" ∧
    arrayInfo none (some b) = "[" ++ ("*-" ++ toString b) ++ "]" ∧
    arrayInfo none none = "[]" := by
  refine ⟨?_, ?_, rfl, rfl, rfl⟩
  · simp [arrayInfo, insideBrackets]
  · simp [arrayInfo, insideBrackets, beq_eq_false_iff_ne.mpr h]

/-- C8 witness: the bracket suffix at the concrete bounds 1 and 4. -/
theorem C8_array_brackets_witness :
    arrayInfo (some 1) (some 1) = "[" ++ toString (1 : Int) ++ "]" ∧
    arrayInfo (some 1) (some 4) = "[" ++ (toString (1 : Int) ++ "-" ++ toString (4 : Int)) ++ "]" ∧
    arrayInfo (some 1) none = "[" ++ (toString (1 : Int) ++ "-*") ++ "]" ∧
    arrayInfo none (some 4) = "[" ++ ("*-" ++ toString (4 : Int)) ++ "]" ∧
    arrayInfo none none = "[]" :=
  C8_array_brackets 1 4 (by decide)

/-- C9 counterexample: an anyOf branch declaring a two-element enum is
not skipped; its first element is rendered, so the claimed
single-element-only rule fails. -/
theorem C9_anyof_enum_counterexample :
    getAnyOfEnumString c9Multi "integer" 1 = some (style.bulletItem "1" 1) ∧
    getAnyOfEnumString c9Multi "integer" 1 ≠ some "" := by
  exact ⟨by decide, by decide⟩

/-- C9 amended: the worked example yields exactly the bullets 0 Zero and
1 One in declaration order; a branch is skipped exactly when it declares
neither a const nor a non-empty enum array; a branch with a non-empty
enum array renders its first element, with the branch description
appended when present. -/
theorem C9_anyof_enum_amended :
    getAnyOfEnumString c9Schema "integer" 1 =
      some (style.bulletItem "0 Zero" 1 ++ style.bulletItem "1 One" 1) ∧
    (∀ el : SchemaNode, ∀ t : String,
      (anyOfBranchString el t = none ↔
        el.const = none ∧ (el.enum = none ∨ el.enum = some []))) ∧
    (∀ el : SchemaNode, ∀ t : String, ∀ v : Json, ∀ vs : List Json,
      el.const = none → el.enum = some (v :: vs) →
      anyOfBranchString el t = some (style.enumElement v t ++
        (match el.description with
         | some d => " " ++ d
         | none => ""))) := by
  refine ⟨by decide, ?_, ?_⟩
  · intro el t
    rcases hc : el.const with _ | c <;>
      rcases he : el.enum with _ | (_ | ⟨v, vs⟩) <;>
        simp [anyOfBranchString, hc, he]
  · intro el t v vs hc he
    simp [anyOfBranchString, hc, he]

/-- C9 witness: a branch declaring only the one-element enum 7 renders
that value. -/
theorem C9_anyof_enum_witness :
    anyOfBranchString c9WitBranch "integer" =
      some (style.enumElement (Json.num 7) "integer" ++
        (match c9WitBranch.description with
         | some d => " " ++ d
         | none => "")) :=
  C9_anyof_enum_amended.2.2 c9WitBranch "integer" (Json.num 7) [] rfl rfl

/-- C3 counterexample: for a property explicitly marked required, the
derived descriptor required string is none of the three claimed forms
Yes, No or No-comma-default: the checkmark marker is baked into the
descriptor itself, giving a marker-prefixed Yes. -/
theorem C3_required_counterexample :
    ¬ ((getPropertySummary c3ReqProp [] AutoLinkOption.off).required = "Yes" ∨
       (getPropertySummary c3ReqProp [] AutoLinkOption.off).required = "No" ∨
       strStartsWith (getPropertySummary c3ReqProp [] AutoLinkOption.off).required
         "No, default: " = true) := by
  decide

/-- C3 amended: the required field of the descriptor is exactly one of
the marker-prefixed Yes (when explicitly required), No-comma-default
followed by the rendered default (when a default is declared), or No
(otherwise); the summary-table cell equals the descriptor string
unchanged, because the required string is never exactly Yes, so the
per-row marker prepend never fires and the marker carried by the cell is
exactly the one the descriptor put there. -/
theorem C3_required_amended (p : SchemaNode) (t : String) :
    (p.required = some true → requiredString p t = style.requiredIcon ++ "Yes") ∧
    (p.required ≠ some true → p.default = none → requiredString p t = "No") ∧
    (∀ d : Json, p.required ≠ some true → p.default = some d →
      requiredString p t = "No, default: " ++
        style.defaultValueText (jsDefaultToString d) t) ∧
    (∀ kt al, (getPropertySummary p kt al).required =
      requiredString p (getPropertySummary p kt al).type) ∧
    requiredString p t ≠ "Yes" ∧
    (∀ s : PropertySummary, s.required ≠ "Yes" → summaryRequiredCell s = s.required) := by
  refine ⟨?_, ?_, ?_, ?_, ?_, ?_⟩
  · intro h
    simp [requiredString, h]
  · intro h hd
    simp [requiredString, beq_eq_false_iff_ne.mpr h, hd]
  · intro d h hd
    simp [requiredString, beq_eq_false_iff_ne.mpr h, hd]
  · intro kt al
    simp [getPropertySummary]
  · by_cases hb : p.required = some true
    · simp [requiredString, hb]
      decide
    · rcases hd : p.default with _ | d
      · simp [requiredString, beq_eq_false_iff_ne.mpr hb, hd]
      · simp [requiredString, beq_eq_false_iff_ne.mpr hb, hd]
        exact no_default_ne_yes _
  · intro s hs
    simp [summaryRequiredCell, beq_eq_false_iff_ne.mpr hs]

/-- C3 witness: the amended required rule at the concrete property with
required false and default 2. -/
theorem C3_required_amended_witness :
    requiredString c3DefProp "integer" =
      "No, default: " ++ style.defaultValueText (jsDefaultToString (Json.num 2)) "integer" :=
  (C3_required_amended c3DefProp "integer").2.2.1 (Json.num 2) (by decide) rfl

/-- C7 counterexample: a child with exactly one parent that is the root
is not nested under it: the whole table of contents for such a graph
contains no indented bullet at all, so the claimed nesting equivalence
fails in the only-one-parent direction. -/
theorem C7_toc_counterexample :
    (graphParents c7Graph "Base Kid").length = 1 ∧
    "Base Kid" ∈ graphChildren c7Graph "Base" ∧
    strContainsSub (getTableOfContentsMarkdown c7BaseSchema c7Graph 1) "    * " = false := by
  exact ⟨by decide, by decide, by decide⟩

/-- C7 amended: a type is listed at the top level exactly when it is the
root, has more than one parent, or is a direct child of the root; the
children recursed into (nested) under a rendered non-root entry are
exactly those with one parent — but the builder never recurses into the
root entry, so single-parent children of the root appear only at top
level. -/
theorem C7_toc_amended (g : TypeGraph) (rootTitle t parentTitle c : String) :
    (t ∈ tocTopLevelTitles (some rootTitle) g ↔
      t ∈ g.map Prod.fst ∧
        (t = rootTitle ∨ 1 < (graphParents g t).length ∨ rootTitle ∈ graphParents g t)) ∧
    (c ∈ tocNestedChildren g parentTitle ↔
      c ∈ graphChildren g parentTitle ∧ (graphParents g c).length = 1) := by
  have hcontains : ∀ (l : List String) (x : String), (l.contains x = true) ↔ x ∈ l := by
    intro l x
    simp [List.contains, List.elem_iff]
  constructor
  · simp only [tocTopLevelTitles, tocTopLevelPred, List.mem_filter, Bool.or_eq_true,
      beq_iff_eq, Option.some.injEq, decide_eq_true_eq, hcontains]
    constructor
    · rintro ⟨hm, (h | h) | h⟩
      · exact ⟨hm, Or.inl h.symm⟩
      · exact ⟨hm, Or.inr (Or.inl h)⟩
      · exact ⟨hm, Or.inr (Or.inr h)⟩
    · rintro ⟨hm, h | h | h⟩
      · exact ⟨hm, Or.inl (Or.inl h.symm)⟩
      · exact ⟨hm, Or.inl (Or.inr h)⟩
      · exact ⟨hm, Or.inr h⟩
  · simp only [tocNestedChildren, List.mem_filter, beq_iff_eq]

/-- C1: the claim fails on the code. With writeTOC set, the table of
contents is computed and then discarded: line 69 overwrites the
accumulated markdown with JSON.stringify of the type graph before
anything is written, so no emitted output (neither the debug dump, nor
the per-type document, nor the return value) contains the
table-of-contents markdown. -/
theorem C1_writeTOC_discarded :
    generateMarkdown c1Resolve c1Resolve c1Options =
      some { writes := [("output/text.md", stringifyGraph c1Graph),
                        ("output/root.md", "## Root\n\n")],
             ret := "" } ∧
    getTableOfContentsMarkdown c1RootSchema c1Graph 1 ≠ "" ∧
    strContainsSub (stringifyGraph c1Graph)
      (getTableOfContentsMarkdown c1RootSchema c1Graph 1) = false ∧
    strContainsSub "## Root\n\n"
      (getTableOfContentsMarkdown c1RootSchema c1Graph 1) = false ∧
    strContainsSub ""
      (getTableOfContentsMarkdown c1RootSchema c1Graph 1) = false := by
  exact ⟨by decide, by decide, by decide, by decide, by decide⟩

/-- C5 counterexample: rendering the documentation of a type with an
array property whose items carry a numeric exclusiveMinimum changes that
SchemaNode: the items fragment is rewritten in place by the dialect
downgrade, so the graph is not unchanged by the render pass. -/
theorem C5_frame_counterexample :
    (createPropertiesDetails c5Schema "T" 3 [] AutoLinkOption.off).2 ≠ c5Schema := by
  intro h
  exact absurd (congrArg c5Probe h) (by decide)

/-- Helper: the state effect of rendering one property is exactly the
items downgrade. -/
theorem renderPropertyDetails_snd (name : String) (property : SchemaNode) (headerMd : String)
    (knownTypes : List String) (autoLink : AutoLinkOption) :
    (renderPropertyDetails name property headerMd knownTypes autoLink).2 =
      downgradeProperty property := by
  cases hp : property.items <;> simp [renderPropertyDetails, downgradeProperty, hp]

/-- C5 amended: after the one-time child-list sort, rendering a type
leaves every SchemaNode unchanged except that each rendered property
whose items fragment encodes exclusivity numerically has that fragment
rewritten in place into the boolean-plus-bound form; nothing else in the
graph is modified by the render pass. -/
theorem C5_frame_amended (schema : SchemaNode) (title : String) (headerLevel : Nat)
    (knownTypes : List String) (autoLink : AutoLinkOption) :
    (createPropertiesDetails schema title headerLevel knownTypes autoLink).2 =
      downgradeSchemaProperties schema := by
  cases hp : schema.properties with
  | none => simp [createPropertiesDetails, downgradeSchemaProperties, hp]
  | some props =>
    simp [createPropertiesDetails, downgradeSchemaProperties, hp, renderPropertyDetails_snd,
      Function.comp_def]

/-- C6: a numeric exclusiveMinimum renders exactly the same Minimum
bullet as the equivalent boolean encoding with the same bound, and
symmetrically for the maximum; and for items fragments the normalization
rewrites the numeric encoding into exactly the boolean form before the
shared formatting path runs. -/
theorem C6_exclusivity_normalization (n : Int) :
    (∀ p q : SchemaNode, p.exclusiveMinimum = some (NumOrBool.num n) →
      q.exclusiveMinimum = some (NumOrBool.bool true) → q.minimum = some n →
      minimumBullet p = minimumBullet q) ∧
    (∀ p q : SchemaNode, p.exclusiveMaximum = some (NumOrBool.num n) →
      q.exclusiveMaximum = some (NumOrBool.bool true) → q.maximum = some n →
      maximumBullet p = maximumBullet q) ∧
    (∀ i : SchemaNode, i.exclusiveMinimum = some (NumOrBool.num n) →
      downgradeItems i =
        downgradeItems ((i.withMinimum (some n)).withExclusiveMinimum
          (some (NumOrBool.bool true)))) ∧
    (∀ i : SchemaNode, i.exclusiveMaximum = some (NumOrBool.num n) →
      downgradeItems i =
        downgradeItems ((i.withMaximum (some n)).withExclusiveMaximum
          (some (NumOrBool.bool true)))) := by
  refine ⟨?_, ?_, ?_, ?_⟩
  · intro p q hp hq hqm
    simp [minimumBullet, hp, hq, hqm, numOrBoolTruthy]
  · intro p q hp hq hqm
    simp [maximumBullet, hp, hq, hqm, numOrBoolTruthy]
  · intro i h
    cases i with
    | mk c p it a ap =>
      simp only [SchemaNode.exclusiveMinimum, SchemaNode.core] at h
      simp [downgradeItems, SchemaNode.exclusiveMinimum, SchemaNode.exclusiveMaximum,
        SchemaNode.core, SchemaNode.withMinimum, SchemaNode.withExclusiveMinimum,
        SchemaNode.withMaximum, SchemaNode.withExclusiveMaximum, h]
  · intro i h
    cases i with
    | mk c p it a ap =>
      simp only [SchemaNode.exclusiveMaximum, SchemaNode.core] at h
      rcases hmin : c.exclusiveMinimum with _ | (m | b) <;>
        simp [downgradeItems, SchemaNode.exclusiveMinimum, SchemaNode.exclusiveMaximum,
          SchemaNode.core, SchemaNode.withMinimum, SchemaNode.withExclusiveMinimum,
          SchemaNode.withMaximum, SchemaNode.withExclusiveMaximum, h, hmin]

/-- C6 witness: the two encodings of an exclusive minimum of 5 render the
same bullet. -/
theorem C6_exclusivity_normalization_witness :
    minimumBullet c6NumProp = minimumBullet c6BoolProp :=
  (C6_exclusivity_normalization 5).1 c6NumProp c6BoolProp rfl rfl rfl

/-- C10: whenever generateMarkdown completes, its return value is the
empty string: all rendered content is delivered through file writes. -/
theorem C10_returns_empty (resolve3 resolve4 : SchemaNode → Resolved) (options : Options)
    (out : GenOutput) (h : generateMarkdown resolve3 resolve4 options = some out) :
    out.ret = "" := by
  unfold generateMarkdown at h
  split at h
  · exact absurd h (by simp)
  · simp only [Option.map_eq_some'] at h
    obtain ⟨w, _, hout⟩ := h
    rw [← hout]

/-- C10 witness: a concrete completing run returns the empty string. -/
theorem C10_returns_empty_witness :
    ((generateMarkdown c10Resolve c10Resolve c10Options).getD
      { writes := [], ret := "x" }).ret = "" :=
  C10_returns_empty c10Resolve c10Resolve c10Options _ (by decide)

end Wetzel
